import Mathlib

/-!
Shallow embedding of the page-analysis logic of `src/pages/WebTools.tsx`.

JavaScript strings are modelled as Lean `String` (inspected through their
`List Char` of code points), JavaScript numbers as `ℚ` (the values involved
are exact small rationals), and the asynchronous fetch through the CORS
proxy as an oracle argument `FetchOutcome` supplied to the analyzer.
The React state pair (`report`, `errors`) is modelled as an explicit
`UIState` value threaded through the analyzer step.
-/

namespace WebTools

/-- `interface WebsiteReport` (WebTools.tsx lines 16-19). -/
structure WebsiteReport where
  metric : String
  value : String
deriving DecidableEq, Repr

/-- `interface WebsiteError` (WebTools.tsx lines 21-25).  The severity is a
string-literal union type in the source, so it is modelled as `String`. -/
structure WebsiteError where
  type : String
  description : String
  severity : String
deriving DecidableEq, Repr

/-- The full outcome of a successful analysis: the two arrays written by
`setReport` / `setErrors` (lines 185-186). -/
structure AnalysisResult where
  metrics : List WebsiteReport
  issues : List WebsiteError
deriving DecidableEq, Repr

/-- The React component state that the analyzer writes into. -/
structure UIState where
  report : List WebsiteReport
  errors : List WebsiteError
deriving DecidableEq, Repr

/-- Oracle for `await fetch(proxyUrl)` / `await response.json()`
(lines 66-67): either the fetch/JSON step throws, or it yields a JSON
object whose `contents` field is absent (`none`) or a string. -/
inductive FetchOutcome where
  | failure
  | success (contents : Option String)
deriving DecidableEq, Repr

/-- Classified outcome of one invocation of `analyzeWebsite`:
`invalidInput` for the two early-return toasts (empty URL / invalid URL,
lines 44-60), `retrievalFailed` for the thrown-and-caught errors of the
retrieval path (lines 69-71 and 191-197), `success` otherwise. -/
inductive AnalyzeOutcome where
  | invalidInput
  | retrievalFailed
  | success (res : AnalysisResult)
deriving DecidableEq, Repr

/-! ## String primitives

The source uses `String.prototype.includes`, `String.prototype.startsWith`
and `html.match(/<img/g)`; they are modelled on the code-point lists. -/

/-- Does the list start with `p`?  (`List.isPrefixOf` specialised.) -/
def startsWith (s p : String) : Bool :=
  List.isPrefixOf p.data s.data

/-- Auxiliary scan for `includes`: does `pat` occur (as a contiguous
sublist) anywhere in the scanned list? -/
def containsAux (pat : List Char) : List Char → Bool
  | [] => pat.isEmpty
  | c :: cs => List.isPrefixOf pat (c :: cs) || containsAux pat cs

/-- Model of `s.includes(pat)` (case-sensitive substring search). -/
def includes (s pat : String) : Bool :=
  containsAux pat.data s.data

/-- Number of positions at which `pat` starts inside the scanned list.
`html.match(/<img/g)` counts non-overlapping matches scanning left to
right; the pattern `<img` has no nonempty proper border (no self-overlap),
so occurrences can never overlap and the two counts coincide. -/
def countOccs (pat : List Char) : List Char → Nat
  | [] => 0
  | c :: cs => (if List.isPrefixOf pat (c :: cs) then 1 else 0) + countOccs pat cs

/-! ## URL validation

`validateUrl` (lines 34-41) succeeds exactly when `new URL(url)` does not
throw.  The WHATWG URL parser is modelled on the fragment the analyzer
depends on: a URL string parses iff it has a syntactically valid scheme
(ASCII alpha, then alphanumerics / `+` / `-` / `.`, up to the first `:`),
and, when the scheme is one of the special network schemes
(`ftp`, `http`, `https`, `ws`, `wss`), a nonempty host follows (after
skipping any leading slashes or backslashes, up to the next delimiter).
Non-special schemes (including `file`) need no host.  Host-character and
port-range validation of the full standard are not modelled; no theorem
below depends on them. -/

/-- Split off everything before the first `:`, returning `(scheme, rest)`;
`none` when the list has no `:`. -/
def schemeSplit : List Char → Option (List Char × List Char)
  | [] => none
  | c :: cs =>
    if c = ':' then some ([], cs)
    else
      match schemeSplit cs with
      | none => none
      | some (sc, rest) => some (c :: sc, rest)

/-- Valid scheme syntax: nonempty, starts with an ASCII alpha, continues
with alphanumerics or `+` `-` `.`. -/
def isSchemeString : List Char → Bool
  | [] => false
  | c :: cs => c.isAlpha && cs.all (fun d => d.isAlphanum || d = '+' || d = '-' || d = '.')

/-- The special schemes of the WHATWG standard that require a host. -/
def specialSchemes : List String := ["ftp", "http", "https", "ws", "wss"]

/-- After the `scheme:` of a special-scheme URL: skip slashes/backslashes,
then require a nonempty host segment before the next delimiter. -/
def hostNonempty (rest : List Char) : Bool :=
  let afterSlashes := rest.dropWhile (fun c => c = '/' || c = '\\')
  let host := afterSlashes.takeWhile
    (fun c => !(c = '/' || c = '\\' || c = '?' || c = '#' || c = ':'))
  !host.isEmpty

/-- Model of `validateUrl` (lines 34-41): `new URL(url)` succeeds. -/
def validateUrl (url : String) : Bool :=
  match schemeSplit url.data with
  | none => false
  | some (sc, rest) =>
    if isSchemeString sc then
      if specialSchemes.contains (String.mk (sc.map Char.toLower)) then hostNonempty rest
      else true
    else false

/-! ## Signals (lines 76-86) -/

/-- `Math.random() * 3 + 0.5` (line 76) as a function of the random
sample `r`. -/
def loadTimeOf (r : ℚ) : ℚ := r * 3 + 1/2

/-- `new Blob([html]).size / 1024` (line 77): UTF-8 byte length over 1024. -/
def htmlSizeKB (html : String) : ℚ := (html.utf8ByteSize : ℚ) / 1024

/-- `(html.match(/<img/g) || []).length` (line 78). -/
def imagesCount (html : String) : Nat := countOccs "<img".data html.data

/-- Line 79. -/
def hasViewport (html : String) : Bool := includes html "name=\"viewport\""

/-- Line 80. -/
def hasFavicon (html : String) : Bool :=
  includes html "rel=\"icon\"" || includes html "rel=\"shortcut icon\""

/-- Line 81. -/
def hasMetaDescription (html : String) : Bool := includes html "name=\"description\""

/-- Line 82. -/
def hasH1 (html : String) : Bool := includes html "<h1"

/-- Line 83. -/
def hasCanonical (html : String) : Bool := includes html "rel=\"canonical\""

/-- Line 84: checks the requested URL, not the fetched content. -/
def hasHttps (url : String) : Bool := startsWith url "https://"

/-- Line 85. -/
def hasRobotsTxt (html : String) : Bool := includes html "robots.txt"

/-- Line 86. -/
def hasSitemap (html : String) : Bool := includes html "sitemap.xml"

/-! ## Formatting -/

/-- Model of `Number.prototype.toFixed(2)` for the nonnegative values
produced here: round `q * 100` to the nearest integer (ties away from
zero, i.e. upward for nonnegative values) and print with two decimals. -/
def toFixed2 (q : ℚ) : String :=
  let n := (⌊q * 100 + 1/2⌋).toNat
  toString (n / 100) ++ "." ++ (if n % 100 < 10 then "0" else "") ++ toString (n % 100)

/-- `newReport` (lines 88-100): the eleven metric rows, in source order. -/
def newReport (url html : String) (r : ℚ) : List WebsiteReport :=
  [⟨"Page Load Time", toFixed2 (loadTimeOf r) ++ "s"⟩,
   ⟨"Page Size", toFixed2 (htmlSizeKB html) ++ " KB"⟩,
   ⟨"Images Count", toString (imagesCount html)⟩,
   ⟨"Mobile Viewport", if hasViewport html then "Present" else "Missing"⟩,
   ⟨"Meta Description", if hasMetaDescription html then "Present" else "Missing"⟩,
   ⟨"Favicon", if hasFavicon html then "Present" else "Missing"⟩,
   ⟨"H1 Tag", if hasH1 html then "Present" else "Missing"⟩,
   ⟨"Canonical Tag", if hasCanonical html then "Present" else "Missing"⟩,
   ⟨"HTTPS", if hasHttps url then "Yes" else "No"⟩,
   ⟨"Robots.txt", if hasRobotsTxt html then "Present" else "Missing"⟩,
   ⟨"Sitemap", if hasSitemap html then "Present" else "Missing"⟩]

/-- The ten `if (...) newErrors.push({...})` blocks of lines 102-183, as a
function of the ten boolean conditions, in source order.  Two conditions
are numeric comparisons in the source (`loadTime > 2`, `imagesCount > 15`);
they arrive here already decided, see `newErrors`. -/
def issuesOfFlags (httpsB loadHigh viewport metaDesc h1 favicon canonical
    imgHigh robots sitemap : Bool) : List WebsiteError :=
  (if !httpsB then [⟨"Security", "Website is not using HTTPS", "high"⟩] else []) ++
  (if loadHigh then [⟨"Performance", "Page load time is above 2 seconds", "high"⟩] else []) ++
  (if !viewport then [⟨"Mobile", "Missing viewport meta tag for mobile optimization", "high"⟩] else []) ++
  (if !metaDesc then [⟨"SEO", "Missing meta description", "medium"⟩] else []) ++
  (if !h1 then [⟨"SEO", "Missing H1 heading", "medium"⟩] else []) ++
  (if !favicon then [⟨"UI", "Missing favicon", "low"⟩] else []) ++
  (if !canonical then [⟨"SEO", "Missing canonical tag", "medium"⟩] else []) ++
  (if imgHigh then [⟨"Performance", "High number of images may affect load time", "medium"⟩] else []) ++
  (if !robots then [⟨"SEO", "Missing robots.txt file", "medium"⟩] else []) ++
  (if !sitemap then [⟨"SEO", "Missing sitemap.xml", "medium"⟩] else [])

/-- `newErrors` (lines 102-183): the issue rules evaluated on the signals
of the current analysis. -/
def newErrors (url html : String) (r : ℚ) : List WebsiteError :=
  issuesOfFlags (hasHttps url) (decide (loadTimeOf r > 2))
    (hasViewport html) (hasMetaDescription html) (hasH1 html)
    (hasFavicon html) (hasCanonical html) (decide (imagesCount html > 15))
    (hasRobotsTxt html) (hasSitemap html)

/-- One invocation of `analyzeWebsite` (lines 43-201) over the fetch
oracle: the guard clauses (lines 44-60), the empty-payload check (line 69,
where JavaScript truthiness also rejects the empty string), and on success
the two state writes (lines 185-186).  On every non-success path the state
is returned unchanged (the only writes other than the busy flag are inside
the success path). -/
def analyzeStep (url : String) (fetch : FetchOutcome) (r : ℚ) (st : UIState) :
    UIState × AnalyzeOutcome :=
  if url = "" then (st, AnalyzeOutcome.invalidInput)
  else if validateUrl url then
    match fetch with
    | FetchOutcome.failure => (st, AnalyzeOutcome.retrievalFailed)
    | FetchOutcome.success none => (st, AnalyzeOutcome.retrievalFailed)
    | FetchOutcome.success (some html) =>
      if html = "" then (st, AnalyzeOutcome.retrievalFailed)
      else
        (⟨newReport url html r, newErrors url html r⟩,
         AnalyzeOutcome.success ⟨newReport url html r, newErrors url html r⟩)
  else (st, AnalyzeOutcome.invalidInput)

/-! ## Spec-side rule table (for the refinement claim about issue order)

`specRuleTable`, `ruleConditions` and `specIssuePairs` transcribe the
ordered rule table of the specification (§4.1 step 5): ten rules, each a
condition over the signals together with the issue type and severity it
emits, evaluated in the listed order. -/

/-- The `(type, severity)` column pairs of the spec's rule table, in the
documented evaluation order. -/
def specRuleTable : List (String × String) :=
  [("Security", "high"), ("Performance", "high"), ("Mobile", "high"),
   ("SEO", "medium"), ("SEO", "medium"), ("UI", "low"), ("SEO", "medium"),
   ("Performance", "medium"), ("SEO", "medium"), ("SEO", "medium")]

/-- The condition column of the spec's rule table, evaluated on the
signals of the current analysis, in the documented order. -/
def ruleConditions (url html : String) (r : ℚ) : List Bool :=
  [!hasHttps url, decide (loadTimeOf r > 2), !hasViewport html,
   !hasMetaDescription html, !hasH1 html, !hasFavicon html,
   !hasCanonical html, decide (imagesCount html > 15), !hasRobotsTxt html,
   !hasSitemap html]

/-- The `(type, severity)` pairs the spec's rule table emits: walk the
rules in order and keep the pair of every rule whose condition holds. -/
def specIssuePairs (url html : String) (r : ℚ) : List (String × String) :=
  (List.zip (ruleConditions url html r) specRuleTable).filterMap
    (fun p => if p.1 then some p.2 else none)

/-- The issue emitted by the high-number-of-images rule (lines 161-167). -/
def imgIssue : WebsiteError :=
  ⟨"Performance", "High number of images may affect load time", "medium"⟩

/-! ## Helper lemmas -/

/-- A string starting with `http://` cannot also start with `https://`:
the two literals disagree at the fifth character. -/
theorem https_isPrefixOf_http_append (t : List Char) :
    List.isPrefixOf "https://".data ("http://".data ++ t) = false := by
  simp [List.isPrefixOf]

/-- For a URL that starts with `http://`, the `hasHttps` signal is off. -/
theorem hasHttps_false_of_http (url : String) (h : startsWith url "http://" = true) :
    hasHttps url = false := by
  unfold startsWith at h
  rw [ List.isPrefixOf_iff_prefix] at h
  obtain ⟨t, ht⟩ := h
  unfold hasHttps startsWith
  rw [← ht]
  exact https_isPrefixOf_http_append t

/-- Inversion: a successful run of the analyzer returns exactly the
report and error lists computed from the URL, the HTML and the sample. -/
theorem analyzeStep_success_inv {url html : String} {r : ℚ} {st : UIState}
    {res : AnalysisResult}
    (h : (analyzeStep url (FetchOutcome.success (some html)) r st).2 =
      AnalyzeOutcome.success res) :
    res = ⟨newReport url html r, newErrors url html r⟩ := by
  simp only [analyzeStep] at h
  split at h
  · simp at h
  · split at h
    · split at h
      · simp at h
      · simp at h
        exact h.symm
    · simp at h

/-- The issue list of `issuesOfFlags`, projected to `(type, severity)`
pairs, agrees with the spec's rule table read off in order. -/
theorem issuesOfFlags_pairs (b1 b2 b3 b4 b5 b6 b7 b8 b9 b10 : Bool) :
    (issuesOfFlags b1 b2 b3 b4 b5 b6 b7 b8 b9 b10).map (fun e => (e.type, e.severity)) =
      (List.zip [!b1, b2, !b3, !b4, !b5, !b6, !b7, b8, !b9, !b10] specRuleTable).filterMap
        (fun p => if p.1 then some p.2 else none) := by
  revert b1 b2 b3 b4 b5 b6 b7 b8 b9 b10
  decide

/-- Structural invariants of the rule output, for all flag combinations:
at most ten issues, pairwise distinct descriptions, and severities drawn
from `high` / `medium` / `low`. -/
theorem issuesOfFlags_invariants (b1 b2 b3 b4 b5 b6 b7 b8 b9 b10 : Bool) :
    (issuesOfFlags b1 b2 b3 b4 b5 b6 b7 b8 b9 b10).length ≤ 10 ∧
    List.Pairwise (fun e₁ e₂ : WebsiteError => e₁.description ≠ e₂.description)
      (issuesOfFlags b1 b2 b3 b4 b5 b6 b7 b8 b9 b10) ∧
    ∀ e ∈ issuesOfFlags b1 b2 b3 b4 b5 b6 b7 b8 b9 b10,
      e.severity = "high" ∨ e.severity = "medium" ∨ e.severity = "low" := by
  revert b1 b2 b3 b4 b5 b6 b7 b8 b9 b10
  decide

/-- The high-number-of-images issue occurs in the rule output exactly as
often as its flag is set: once when set, never otherwise. -/
theorem issuesOfFlags_count_img (b1 b2 b3 b4 b5 b6 b7 b8 b9 b10 : Bool) :
    List.count imgIssue (issuesOfFlags b1 b2 b3 b4 b5 b6 b7 b8 b9 b10) =
      if b8 then 1 else 0 := by
  revert b1 b2 b3 b4 b5 b6 b7 b8 b9 b10
  decide

/-! ## Claims -/

/-- C1 (counterexample): `mailto:test` is a URL with no host, yet
`validateUrl` accepts it — a non-special scheme needs no authority — so
the analyzer proceeds past validation and the retrieval step is reached:
its outcome reflects the fetch oracle (`retrievalFailed` here), not
`InvalidInput`. -/
theorem missing_host_url_reaches_retrieval :
    validateUrl "mailto:test" = true ∧
    (analyzeStep "mailto:test" FetchOutcome.failure 0 ⟨[], []⟩).2 =
      AnalyzeOutcome.retrievalFailed := by
  decide

/-- C1 (amended): for every input string that is empty or rejected by the
URL parser (in particular every string with no scheme, i.e. whose text up
to a first `:` is absent), the analyzer fails with `InvalidInput` and the
state is unchanged, for every fetch oracle — the retrieval step is never
consulted. -/
theorem invalid_url_rejected_before_io (url : String) (f : FetchOutcome) (r : ℚ)
    (st : UIState)
    (h : url = "" ∨ schemeSplit url.data = none ∨ validateUrl url = false) :
    analyzeStep url f r st = (st, AnalyzeOutcome.invalidInput) := by
  rcases h with h | h | h
  · simp [analyzeStep, h]
  · have hv : validateUrl url = false := by simp [validateUrl, h]
    by_cases h0 : url = ""
    · simp [analyzeStep, h0]
    · simp [analyzeStep, h0, hv]
  · by_cases h0 : url = ""
    · simp [analyzeStep, h0]
    · simp [analyzeStep, h0, h]

/-- C1 witness: `example.com` has no scheme and is rejected with no I/O. -/
theorem invalid_url_rejected_before_io_witness :
    schemeSplit "example.com".data = none ∧
    analyzeStep "example.com" FetchOutcome.failure 0 ⟨[], []⟩ =
      (⟨[], []⟩, AnalyzeOutcome.invalidInput) :=
  ⟨by decide,
   invalid_url_rejected_before_io "example.com" FetchOutcome.failure 0 ⟨[], []⟩
     (Or.inr (Or.inl (by decide)))⟩

/-- C2: on every successful analysis, the issues list is exactly what the
spec's ordered ten-rule table produces on the signals — rule by rule, in
the documented order, one `(type, severity)` entry per rule whose
condition holds and nothing else. -/
theorem issues_follow_spec_rule_table (url html : String) (r : ℚ) (st : UIState)
    (res : AnalysisResult)
    (h : (analyzeStep url (FetchOutcome.success (some html)) r st).2 =
      AnalyzeOutcome.success res) :
    res.issues.map (fun e => (e.type, e.severity)) = specIssuePairs url html r := by
  have hres := analyzeStep_success_inv h
  subst hres
  show (newErrors url html r).map _ = _
  unfold newErrors specIssuePairs ruleConditions
  exact issuesOfFlags_pairs (hasHttps url) (decide (loadTimeOf r > 2))
    (hasViewport html) (hasMetaDescription html) (hasH1 html)
    (hasFavicon html) (hasCanonical html) (decide (imagesCount html > 15))
    (hasRobotsTxt html) (hasSitemap html)

/-- C2 witness: a concrete successful analysis of an `http://` URL. -/
theorem issues_follow_spec_rule_table_witness :
    (AnalysisResult.mk (newReport "http://x" "<h1>" 0) (newErrors "http://x" "<h1>" 0)).issues.map
        (fun e => (e.type, e.severity)) =
      specIssuePairs "http://x" "<h1>" 0 :=
  issues_follow_spec_rule_table "http://x" "<h1>" 0 ⟨[], []⟩
    ⟨newReport "http://x" "<h1>" 0, newErrors "http://x" "<h1>" 0⟩ rfl

/-- C3: on every successful analysis, whatever the URL and fetched HTML,
the metrics list has exactly 11 entries carrying the fixed display labels
in a fixed order, with the load time printed as two-decimal seconds, the
page size as two-decimal KB, the image count as an integer, and each
boolean signal as `Present`/`Missing` (`Yes`/`No` for HTTPS). -/
theorem metrics_fixed_shape (url html : String) (r : ℚ) (st : UIState)
    (res : AnalysisResult)
    (h : (analyzeStep url (FetchOutcome.success (some html)) r st).2 =
      AnalyzeOutcome.success res) :
    res.metrics.length = 11 ∧
    res.metrics.map (fun m => m.metric) =
      ["Page Load Time", "Page Size", "Images Count", "Mobile Viewport",
       "Meta Description", "Favicon", "H1 Tag", "Canonical Tag", "HTTPS",
       "Robots.txt", "Sitemap"] ∧
    ∃ v4 v5 v6 v7 v8 v9 v10 v11 : String,
      res.metrics.map (fun m => m.value) =
        [toFixed2 (loadTimeOf r) ++ "s", toFixed2 (htmlSizeKB html) ++ " KB",
         toString (imagesCount html), v4, v5, v6, v7, v8, v9, v10, v11] ∧
      (v4 = "Present" ∨ v4 = "Missing") ∧ (v5 = "Present" ∨ v5 = "Missing") ∧
      (v6 = "Present" ∨ v6 = "Missing") ∧ (v7 = "Present" ∨ v7 = "Missing") ∧
      (v8 = "Present" ∨ v8 = "Missing") ∧ (v9 = "Yes" ∨ v9 = "No") ∧
      (v10 = "Present" ∨ v10 = "Missing") ∧ (v11 = "Present" ∨ v11 = "Missing") := by
  have hres := analyzeStep_success_inv h
  subst hres
  refine ⟨rfl, rfl, _, _, _, _, _, _, _, _, rfl, ?_, ?_, ?_, ?_, ?_, ?_, ?_, ?_⟩
  · cases hb : hasViewport html <;> simp [hb]
  · cases hb : hasMetaDescription html <;> simp [hb]
  · cases hb : hasFavicon html <;> simp [hb]
  · cases hb : hasH1 html <;> simp [hb]
  · cases hb : hasCanonical html <;> simp [hb]
  · cases hb : hasHttps url <;> simp [hb]
  · cases hb : hasRobotsTxt html <;> simp [hb]
  · cases hb : hasSitemap html <;> simp [hb]

/-- C3 witness: the metrics shape on a concrete successful analysis. -/
theorem metrics_fixed_shape_witness :
    (AnalysisResult.mk (newReport "https://e.com" "<h1>" 0) (newErrors "https://e.com" "<h1>" 0)).metrics.length = 11 ∧
    (AnalysisResult.mk (newReport "https://e.com" "<h1>" 0) (newErrors "https://e.com" "<h1>" 0)).metrics.map
        (fun m => m.metric) =
      ["Page Load Time", "Page Size", "Images Count", "Mobile Viewport",
       "Meta Description", "Favicon", "H1 Tag", "Canonical Tag", "HTTPS",
       "Robots.txt", "Sitemap"] ∧
    ∃ v4 v5 v6 v7 v8 v9 v10 v11 : String,
      (AnalysisResult.mk (newReport "https://e.com" "<h1>" 0) (newErrors "https://e.com" "<h1>" 0)).metrics.map
          (fun m => m.value) =
        [toFixed2 (loadTimeOf 0) ++ "s", toFixed2 (htmlSizeKB "<h1>") ++ " KB",
         toString (imagesCount "<h1>"), v4, v5, v6, v7, v8, v9, v10, v11] ∧
      (v4 = "Present" ∨ v4 = "Missing") ∧ (v5 = "Present" ∨ v5 = "Missing") ∧
      (v6 = "Present" ∨ v6 = "Missing") ∧ (v7 = "Present" ∨ v7 = "Missing") ∧
      (v8 = "Present" ∨ v8 = "Missing") ∧ (v9 = "Yes" ∨ v9 = "No") ∧
      (v10 = "Present" ∨ v10 = "Missing") ∧ (v11 = "Present" ∨ v11 = "Missing") :=
  metrics_fixed_shape "https://e.com" "<h1>" 0 ⟨[], []⟩
    ⟨newReport "https://e.com" "<h1>" 0, newErrors "https://e.com" "<h1>" 0⟩ rfl

/-- C4: when the requested URL starts with `http://` (so not with
`https://`), every successful analysis contains the Security/high issue
"Website is not using HTTPS", whatever the fetched HTML was. -/
theorem http_url_yields_security_issue (url html : String) (r : ℚ) (st : UIState)
    (res : AnalysisResult)
    (hu : startsWith url "http://" = true)
    (h : (analyzeStep url (FetchOutcome.success (some html)) r st).2 =
      AnalyzeOutcome.success res) :
    (⟨"Security", "Website is not using HTTPS", "high"⟩ : WebsiteError) ∈ res.issues := by
  have hres := analyzeStep_success_inv h
  subst hres
  show _ ∈ newErrors url html r
  unfold newErrors
  rw [hasHttps_false_of_http url hu]
  simp [issuesOfFlags]

/-- C4 witness: a concrete `http://` analysis carries the HTTPS issue. -/
theorem http_url_yields_security_issue_witness :
    startsWith "http://insecure.example" "http://" = true ∧
    (⟨"Security", "Website is not using HTTPS", "high"⟩ : WebsiteError) ∈
      (AnalysisResult.mk (newReport "http://insecure.example" "<h1>" 0)
        (newErrors "http://insecure.example" "<h1>" 0)).issues :=
  ⟨by decide,
   http_url_yields_security_issue "http://insecure.example" "<h1>" 0 ⟨[], []⟩
     ⟨newReport "http://insecure.example" "<h1>" 0,
      newErrors "http://insecure.example" "<h1>" 0⟩ (by decide) rfl⟩

/-- C5: when the HTML contains no occurrence of `<img` the
high-number-of-images rule does not fire, and when it contains exactly 16
occurrences the Performance/medium issue "High number of images may
affect load time" appears exactly once in the issues list. -/
theorem images_count_rules (url html : String) (r : ℚ) :
    (imagesCount html = 0 → List.count imgIssue (newErrors url html r) = 0) ∧
    (imagesCount html = 16 → List.count imgIssue (newErrors url html r) = 1) := by
  constructor <;> intro hc <;> unfold newErrors <;>
    rw [issuesOfFlags_count_img] <;> simp [hc]

/-- C5 witness: concrete HTML with zero and with sixteen `<img`
occurrences. -/
theorem images_count_rules_witness :
    imagesCount "<p>no images</p>" = 0 ∧
    List.count imgIssue (newErrors "https://a" "<p>no images</p>" 0) = 0 ∧
    imagesCount "<img<img<img<img<img<img<img<img<img<img<img<img<img<img<img<img" = 16 ∧
    List.count imgIssue
      (newErrors "https://a" "<img<img<img<img<img<img<img<img<img<img<img<img<img<img<img<img" 0) = 1 :=
  ⟨by decide,
   (images_count_rules "https://a" "<p>no images</p>" 0).1 (by decide),
   by decide,
   (images_count_rules "https://a"
     "<img<img<img<img<img<img<img<img<img<img<img<img<img<img<img<img" 0).2 (by decide)⟩

/-- C6: when retrieval yields no content — the JSON payload has no
`contents` field or it is the empty string — the analyzer fails with
`RetrievalFailed` and produces no result: the state is unchanged. -/
theorem empty_payload_retrieval_failed (url : String) (r : ℚ) (st : UIState)
    (c : Option String)
    (hv : validateUrl url = true) (hc : c = none ∨ c = some "") :
    analyzeStep url (FetchOutcome.success c) r st = (st, AnalyzeOutcome.retrievalFailed) := by
  have h0 : ¬url = "" := by
    intro he
    rw [he] at hv
    exact absurd hv (by decide)
  rcases hc with hc | hc <;> subst hc <;> simp [analyzeStep, h0, hv]

/-- C6 witness: an absent payload for a valid URL. -/
theorem empty_payload_retrieval_failed_witness :
    validateUrl "https://example.com" = true ∧
    analyzeStep "https://example.com" (FetchOutcome.success none) 0 ⟨[], []⟩ =
      (⟨[], []⟩, AnalyzeOutcome.retrievalFailed) :=
  ⟨by decide,
   empty_payload_retrieval_failed "https://example.com" 0 ⟨[], []⟩ none
     (by decide) (Or.inl rfl)⟩

/-- C7: on every invocation that does not succeed — invalid input,
retrieval failure, or a thrown error — the previously stored report and
error lists are left untouched: the caller sees either a complete fresh
result or the old state, never a partial mix. -/
theorem failure_leaves_state_unchanged (url : String) (f : FetchOutcome) (r : ℚ)
    (st : UIState)
    (h : ∀ res, (analyzeStep url f r st).2 ≠ AnalyzeOutcome.success res) :
    (analyzeStep url f r st).1 = st := by
  by_cases h1 : url = ""
  · simp [analyzeStep, h1]
  · by_cases h2 : validateUrl url = true
    · cases f with
      | failure => simp [analyzeStep, h1, h2]
      | success c =>
        cases c with
        | none => simp [analyzeStep, h1, h2]
        | some html =>
          by_cases h3 : html = ""
          · simp [analyzeStep, h1, h2, h3]
          · exact absurd
              (by simp [analyzeStep, h1, h2, h3] :
                (analyzeStep url (FetchOutcome.success (some html)) r st).2 =
                  AnalyzeOutcome.success ⟨newReport url html r, newErrors url html r⟩)
              (h _)
    · simp [analyzeStep, h1, h2]

/-- C7 witness: the empty-URL failure leaves the stored state alone. -/
theorem failure_leaves_state_unchanged_witness :
    (analyzeStep "" FetchOutcome.failure 0 ⟨[], []⟩).1 = (⟨[], []⟩ : UIState) :=
  failure_leaves_state_unchanged "" FetchOutcome.failure 0 ⟨[], []⟩
    (fun _ hcon => by simp [analyzeStep] at hcon)

/-- C8: for every random sample `r` in `[0, 1)`, the simulated load time
`r * 3 + 0.5` lies in `[0.5, 3.5)`. -/
theorem load_time_range (r : ℚ) (h0 : 0 ≤ r) (h1 : r < 1) :
    1/2 ≤ loadTimeOf r ∧ loadTimeOf r < 7/2 := by
  unfold loadTimeOf
  constructor <;> nlinarith

/-- C8 witness: the bounds at the sample `r = 0`. -/
theorem load_time_range_witness :
    (0 : ℚ) ≤ 0 ∧ (0 : ℚ) < 1 ∧ (1/2 ≤ loadTimeOf 0 ∧ loadTimeOf 0 < 7/2) :=
  ⟨le_refl 0, zero_lt_one, load_time_range 0 (le_refl 0) zero_lt_one⟩

/-- C9: the analysis is deterministic modulo the random sample: two
invocations with the same URL, the same fetch outcome and the same sample
produce the same outcome, and their resulting states agree except that on
failure each invocation keeps its own prior state unchanged. -/
theorem analysis_deterministic (url : String) (f : FetchOutcome) (r : ℚ)
    (st₁ st₂ : UIState) :
    (analyzeStep url f r st₁).2 = (analyzeStep url f r st₂).2 ∧
    ((analyzeStep url f r st₁).1 = (analyzeStep url f r st₂).1 ∨
     ((analyzeStep url f r st₁).1 = st₁ ∧ (analyzeStep url f r st₂).1 = st₂)) := by
  by_cases h1 : url = ""
  · simp [analyzeStep, h1]
  · by_cases h2 : validateUrl url = true
    · cases f with
      | failure => simp [analyzeStep, h1, h2]
      | success c =>
        cases c with
        | none => simp [analyzeStep, h1, h2]
        | some html => by_cases h3 : html = "" <;> simp [analyzeStep, h1, h2, h3]
    · simp [analyzeStep, h1, h2]

/-- C10: on every successful analysis the issues list has at most ten
entries, no rule's issue appears twice (all descriptions are pairwise
distinct), and every severity is `high`, `medium` or `low`. -/
theorem issues_list_invariants (url html : String) (r : ℚ) (st : UIState)
    (res : AnalysisResult)
    (h : (analyzeStep url (FetchOutcome.success (some html)) r st).2 =
      AnalyzeOutcome.success res) :
    res.issues.length ≤ 10 ∧
    List.Pairwise (fun e₁ e₂ : WebsiteError => e₁.description ≠ e₂.description)
      res.issues ∧
    ∀ e ∈ res.issues, e.severity = "high" ∨ e.severity = "medium" ∨ e.severity = "low" := by
  have hres := analyzeStep_success_inv h
  subst hres
  show (newErrors url html r).length ≤ 10 ∧ _ ∧ _
  unfold newErrors
  exact issuesOfFlags_invariants (hasHttps url) (decide (loadTimeOf r > 2))
    (hasViewport html) (hasMetaDescription html) (hasH1 html)
    (hasFavicon html) (hasCanonical html) (decide (imagesCount html > 15))
    (hasRobotsTxt html) (hasSitemap html)

/-- C10 witness: the invariants on a concrete successful analysis. -/
theorem issues_list_invariants_witness :
    (AnalysisResult.mk (newReport "https://w.org" "<h1>" 0) (newErrors "https://w.org" "<h1>" 0)).issues.length ≤ 10 ∧
    List.Pairwise (fun e₁ e₂ : WebsiteError => e₁.description ≠ e₂.description)
      (AnalysisResult.mk (newReport "https://w.org" "<h1>" 0) (newErrors "https://w.org" "<h1>" 0)).issues ∧
    ∀ e ∈ (AnalysisResult.mk (newReport "https://w.org" "<h1>" 0) (newErrors "https://w.org" "<h1>" 0)).issues,
      e.severity = "high" ∨ e.severity = "medium" ∨ e.severity = "low" :=
  issues_list_invariants "https://w.org" "<h1>" 0 ⟨[], []⟩
    ⟨newReport "https://w.org" "<h1>" 0, newErrors "https://w.org" "<h1>" 0⟩ rfl

end WebTools
